import Mathlib

/-!
Shallow embedding of the AI-Transcriber backend pipeline (FastAPI + Celery
application under backend/app) and proofs about its behaviour.

The embedding follows the Python source:
  - backend/app/services/health_service.py   (SystemHealthService.get_status)
  - backend/app/core/llm.py                  (LlmClient: circuit breaker)
  - backend/app/services/event_service.py    (EventService.publish_event)
  - backend/app/tasks.py                     (pipeline stage tasks)
  - backend/app/services/summarizer_service.py (SummarizerService.generate_summary)
  - backend/app/services/transcription.py    (semaphore-bounded transcribe)

External I/O (HTTP calls to Ollama, Redis, the database, the inference
engines) is represented by outcome parameters: each model function takes the
outcome the external world would produce and computes exactly what the Python
control flow does with it.
-/

/-! ## Health service (backend/app/services/health_service.py) -/

/-- Embedding of the ServiceStatus enum. -/
inductive ServiceStatus where
  | ready
  | initializing
  | degraded
  | error
  | unavailable
deriving DecidableEq, Repr

/-- Embedding of the overall-status computation in
SystemHealthService.get_status (health_service.py lines 83-93): the chain of
if/elif branches over the three tracked component statuses. -/
def SystemHealthService.overallStatus (t l d : ServiceStatus) : ServiceStatus :=
  if t = .error then .error
  else if l = .error ∨ l = .unavailable ∨ l = .degraded then .degraded
  else if d = .error then .degraded
  else if t = .initializing ∨ l = .initializing ∨ d = .initializing then .initializing
  else .ready

/-- Severity rank taken from the spec's words: ERROR dominates
DEGRADED/UNAVAILABLE, which dominate INITIALIZING, which dominates READY. -/
def ServiceStatus.specSeverity : ServiceStatus → Nat
  | .error => 3
  | .degraded => 2
  | .unavailable => 2
  | .initializing => 1
  | .ready => 0

/-- Map a severity rank back to the canonical status of that rank. -/
def statusOfSeverity : Nat → ServiceStatus
  | 3 => .error
  | 2 => .degraded
  | 1 => .initializing
  | _ => .ready

/-- Modelled from the spec's words (worst-of-N policy over one common
severity ordering), for comparison against the code's aggregation. -/
def specWorstOfN (t l d : ServiceStatus) : ServiceStatus :=
  statusOfSeverity (max t.specSeverity (max l.specSeverity d.specSeverity))

/-- Per-component severity actually implemented by get_status for the
transcriber: only ERROR (rank 3) and INITIALIZING (rank 1) are visible;
DEGRADED and UNAVAILABLE are treated like READY. -/
def transcriberSeverity : ServiceStatus → Nat
  | .error => 3
  | .initializing => 1
  | _ => 0

/-- Per-component severity actually implemented by get_status for the LLM:
ERROR, UNAVAILABLE and DEGRADED all rank as DEGRADED (2). -/
def llmSeverity : ServiceStatus → Nat
  | .error => 2
  | .unavailable => 2
  | .degraded => 2
  | .initializing => 1
  | .ready => 0

/-- Per-component severity actually implemented by get_status for speaker
diarization: only ERROR (rank 2) and INITIALIZING (rank 1) are visible. -/
def diarizationSeverity : ServiceStatus → Nat
  | .error => 2
  | .initializing => 1
  | _ => 0

/-! ## Circuit breaker (backend/app/core/llm.py) -/

/-- Mutable circuit-breaker fields of LlmClient (llm.py lines 26-29). -/
structure LlmState where
  circuit_open : Bool
  consecutive_failures : Nat
  max_failures : Nat
deriving DecidableEq, Repr

/-- The state LlmClient.__init__ establishes: circuit closed, zero
consecutive failures, threshold max_failures = 2. -/
def LlmState.init : LlmState :=
  { circuit_open := false, consecutive_failures := 0, max_failures := 2 }

/-- Outcome of the network attempt inside LlmClient.generate when one is
made: a 200 response carrying text, a non-200 status, or a raised
exception. -/
inductive GenOutcome where
  | success (response : String)
  | httpError (code : Nat)
  | exc
deriving DecidableEq, Repr

/-- An outcome that takes one of the two failure branches of generate. -/
def GenOutcome.isFailure : GenOutcome → Bool
  | .success _ => false
  | .httpError _ => true
  | .exc => true

/-- Outcome of the probe inside LlmClient.check_connection: 200 with the
model present, 200 with the model missing, a non-200 status, or a raised
exception. -/
inductive ProbeOutcome where
  | okModelFound
  | okModelMissing
  | httpError (code : Nat)
  | exc
deriving DecidableEq, Repr

/-- LlmClient._trip_circuit (llm.py lines 66-72): sets circuit_open; the
consecutive-failure counter is left untouched. -/
def LlmClient.tripCircuit (s : LlmState) : LlmState :=
  { s with circuit_open := true }

/-- LlmClient._reset_circuit (llm.py lines 74-79): closes the circuit and
zeroes the consecutive-failure counter. -/
def LlmClient.resetCircuit (s : LlmState) : LlmState :=
  { s with circuit_open := false, consecutive_failures := 0 }

/-- Result of one generate call: the successor state, the returned content,
and how many network attempts were made. -/
structure GenResult where
  state : LlmState
  response : Option String
  networkAttempts : Nat
deriving DecidableEq, Repr

/-- The failure branches of LlmClient.generate (llm.py lines 123-134):
increment consecutive_failures and trip the circuit once the threshold is
met. -/
def LlmClient.generateFailure (s : LlmState) : GenResult :=
  let s1 : LlmState := { s with consecutive_failures := s.consecutive_failures + 1 }
  { state := if s1.max_failures ≤ s1.consecutive_failures then LlmClient.tripCircuit s1 else s1,
    response := none,
    networkAttempts := 1 }

/-- LlmClient.generate (llm.py lines 91-134). While the circuit is open it
returns None without touching the network; otherwise it attempts the call,
resetting the circuit on a 200 and counting the failure otherwise. -/
def LlmClient.generate (s : LlmState) (o : GenOutcome) : GenResult :=
  if s.circuit_open then { state := s, response := none, networkAttempts := 0 }
  else
    match o with
    | .success r => { state := LlmClient.resetCircuit s, response := some r, networkAttempts := 1 }
    | .httpError _ => LlmClient.generateFailure s
    | .exc => LlmClient.generateFailure s

/-- LlmClient.check_connection (llm.py lines 35-64): a found model resets
the circuit, a missing model only flips the health flag, and a non-200 or
exception trips the circuit unconditionally. Returns the new state and the
boolean result. -/
def LlmClient.check_connection (s : LlmState) (o : ProbeOutcome) : LlmState × Bool :=
  match o with
  | .okModelFound => (LlmClient.resetCircuit s, true)
  | .okModelMissing => (s, false)
  | .httpError _ => (LlmClient.tripCircuit s, false)
  | .exc => (LlmClient.tripCircuit s, false)

/-- Fold a sequence of generate calls over the client state. -/
def LlmClient.runGenerate (s : LlmState) (os : List GenOutcome) : LlmState :=
  os.foldl (fun st o => (LlmClient.generate st o).state) s

/-- One externally visible step of the client: either a generate call or a
connection probe (the background recovery monitor calls check_connection). -/
inductive LlmEvent where
  | gen (o : GenOutcome)
  | probe (o : ProbeOutcome)
deriving DecidableEq, Repr

/-- State transition of one LlmEvent. -/
def LlmClient.step (s : LlmState) (e : LlmEvent) : LlmState :=
  match e with
  | .gen o => (LlmClient.generate s o).state
  | .probe o => (LlmClient.check_connection s o).1

/-- The event is a probe whose network attempt failed. -/
def LlmEvent.isFailedProbe : LlmEvent → Bool
  | .probe (.httpError _) => true
  | .probe .exc => true
  | _ => false

/-- The event is a generate call whose network attempt failed. -/
def LlmEvent.isGenFailure : LlmEvent → Bool
  | .gen o => o.isFailure
  | _ => false

/-! ## Python payload values

The pipeline threads an untyped dict payload between Celery tasks. PyVal
mirrors the Python values that occur there, with Python truthiness and
dict.get semantics. -/

/-- Untyped Python value as used in the task payload dicts. -/
inductive PyVal where
  | pynone
  | pybool (b : Bool)
  | str (s : String)
  | int (n : Int)
  | list (xs : List PyVal)
  | dict (entries : List (String × PyVal))

/-- Python dict.get with an explicit default; on a non-dict value the task
code never calls .get, so any default-returning total extension is safe. -/
def PyVal.getD (v : PyVal) (key : String) (dflt : PyVal) : PyVal :=
  match v with
  | .dict entries =>
    match entries.lookup key with
    | some w => w
    | none => dflt
  | _ => dflt

/-- Python dict.get with default None (the one-argument form). -/
def PyVal.get (v : PyVal) (key : String) : PyVal :=
  v.getD key .pynone

/-- Python truthiness for the values above. -/
def PyVal.truthy : PyVal → Bool
  | .pynone => false
  | .pybool b => b
  | .str s => !(s == "")
  | .int n => !(n == 0)
  | .list xs => !xs.isEmpty
  | .dict es => !es.isEmpty

/-- Python d[key] = value on a dict (replace or append); non-dict values are
returned unchanged (the task code only assigns into dicts). -/
def PyVal.setKey (v : PyVal) (key : String) (val : PyVal) : PyVal :=
  match v with
  | .dict es => .dict (go es)
  | _ => v
where
  go : List (String × PyVal) → List (String × PyVal)
    | [] => [(key, val)]
    | (k, w) :: rest => if k == key then (key, val) :: rest else (k, w) :: go rest

/-- Python str() rendering as used in the f-string channel names. In every
task the interpolated id is a string (or None when absent); container
rendering is abbreviated since no claim evaluates it. -/
def PyVal.pyStr : PyVal → String
  | .pynone => "None"
  | .pybool b => if b then "True" else "False"
  | .str s => s
  | .int n => toString n
  | .list _ => "<list>"
  | .dict _ => "<dict>"

/-- Python x or y over payload values (x if truthy else y). -/
def pyOr (a b : PyVal) : PyVal :=
  if a.truthy then a else b

/-- Coerce a payload value to the Optional[str] argument of a service call;
the chain only ever passes strings or None here. -/
def PyVal.asTextOpt : PyVal → Option String
  | .str s => some s
  | _ => none

/-- Python truthiness of an Optional[str] (None and the empty string are
falsy). -/
def pyFalsyText : Option String → Bool
  | none => true
  | some t => t == ""

/-- Number of maximal whitespace-separated chunks in a character list,
tracking whether the previous character was inside a word. -/
def pyWordCountAux : List Char → Bool → Nat
  | [], _ => 0
  | c :: rest, inWord =>
    if c.isWhitespace then pyWordCountAux rest false
    else (if inWord then 0 else 1) + pyWordCountAux rest true

/-- Python len(s.split()): number of maximal non-empty whitespace-separated
chunks. -/
def pyWordCount (s : String) : Nat :=
  pyWordCountAux s.toList false

/-! ## Event bus (backend/app/services/event_service.py) -/

/-- Outcome of the body of EventService.publish_event: json.dumps and the
Redis publish either both succeed or one of them raises. -/
inductive PublishOutcome where
  | ok
  | serializeError (msg : String)
  | transportError (msg : String)
deriving DecidableEq, Repr

/-- The try-block of publish_event (event_service.py lines 30-36) as an
Except computation: an error value is a raised exception. -/
def EventService.publishBody (o : PublishOutcome) : Except String Unit :=
  match o with
  | .ok => Except.ok ()
  | .serializeError m => Except.error m
  | .transportError m => Except.error m

/-- EventService.publish_event (event_service.py lines 25-38): the bare
except clause catches every exception, logs it and returns normally. The
Bool records whether the message actually went out. -/
def EventService.publish_event (channel event_type : String) (o : PublishOutcome) :
    Except String Bool :=
  match EventService.publishBody o with
  | Except.ok _ => Except.ok true
  | Except.error _ => Except.ok false

/-! ## Pipeline stage tasks (backend/app/tasks.py) -/

/-- Observable side effect of a stage task: an event-bus publish (channel
and event type), a database commit, or enqueuing another Celery task with
its payload. -/
inductive Effect where
  | publish (channel : String) (eventType : String)
  | dbCommit (description : String)
  | enqueue (task : String) (payload : PyVal)

/-- Channels of all publish effects, in order. -/
def publishChannels (effects : List Effect) : List String :=
  effects.filterMap fun e =>
    match e with
    | .publish c _ => some c
    | _ => none

/-- Whether a task of the given name was enqueued. -/
def enqueuesTask (effects : List Effect) (t : String) : Bool :=
  effects.any fun e =>
    match e with
    | .enqueue t2 _ => t2 == t
    | _ => false

/-- Payload of the first enqueue of the given task name, if any. -/
def enqueuedPayload (effects : List Effect) (t : String) : Option PyVal :=
  effects.findSome? fun e =>
    match e with
    | .enqueue t2 p => if t2 == t then some p else none
    | _ => none

/-- All publish effects use one and the same channel. -/
def allSameChannel (effects : List Effect) : Bool :=
  match publishChannels effects with
  | [] => true
  | c :: rest => rest.all fun c2 => c2 == c

/-- The shared robust-input-handling prologue of run_auto_correct_task,
run_speaker_ident_task, generate_summary_task and extract_context_task
(tasks.py lines 449-459 and analogous): a str input is taken as the id, a
dict input yields its id field, unwrapping one nested id dict. -/
def extractTranscriptionId (result : PyVal) : PyVal :=
  match result with
  | .str s => .str s
  | .dict _ =>
    let t := result.get "id"
    match t with
    | .dict _ => t.get "id"
    | _ => t
  | _ => .pynone

/-- The same prologue's rebinding of the payload variable: a str input is
replaced by a one-field dict, every other input is left as it is. -/
def normalizePayload (result : PyVal) : PyVal :=
  match result with
  | .str s => .dict [("id", .str s)]
  | _ => result

/-- The input is neither a string nor a value from which the prologue
extracts a truthy id. -/
def noUsableId (p : PyVal) : Bool :=
  match p with
  | .str _ => false
  | _ => !(extractTranscriptionId p).truthy

/-- merge_speaker_segments_with_transcript
(speaker_diarization_service.py lines 170-211): label each transcript
segment with the speaker of the first diarization segment whose time range
overlaps it, defaulting to Unknown. Segment times are integers in this
embedding; no claim exercises the arithmetic. -/
def mergeSpeakerSegments (transcriptSegments speakerSegments : List PyVal) : List PyVal :=
  transcriptSegments.map fun transSeg =>
    let transStart := transSeg.getD "start" (.int 0)
    let transEnd := transSeg.getD "end" (.int 0)
    let speaker := findSpeaker transStart transEnd speakerSegments
    transSeg.setKey "speaker" speaker
where
  overlaps : PyVal → PyVal → PyVal → PyVal → Bool
    | .int a, .int b, .int c, .int d => max a c < min b d
    | _, _, _, _ => false
  findSpeaker (ts te : PyVal) : List PyVal → PyVal
    | [] => .str "Unknown"
    | spkSeg :: rest =>
      if overlaps ts (spkSeg.get "start") te (spkSeg.get "end") then spkSeg.get "speaker"
      else findSpeaker ts te rest

/-- Result of running one stage task: the value it returns (or the message
it re-raises for retry), its side effects in order, the diarization segment
list it observed, and whether it ended in the retry path. -/
structure TaskOutput where
  payload : PyVal
  effects : List Effect
  speakerSegments : List PyVal
  failed : Bool

/-- External outcomes consumed by one attempt of transcribe_audio_task:
the derived context keywords (none when the scan is skipped, fails, or
yields nothing), the transcription result dict or its exception, the
diarization result or its exception, and the persistence outcome carrying
the new row id. -/
structure TranscribeEnv where
  skipContext : Bool
  contextKeywords : Option String
  transcription : Except String PyVal
  diarization : Except String (List PyVal)
  save : Except String String

/-- transcribe_audio_task (tasks.py lines 218-434). Publishes its progress,
completion and failure events on the channel derived from its own Celery
request id; joins the parallel transcription/diarization pair, where a
diarization exception degrades to an empty speaker list (safe_diarize,
lines 320-326) while a transcription exception reaches the outer handler;
merges speaker labels only when the speaker list is non-empty; persists;
stores the database id into the payload; and enqueues run_auto_correct_task
with that payload. -/
def transcribe_audio_task (celeryTaskId : String) (env : TranscribeEnv) : TaskOutput :=
  let ch := "app:task_" ++ celeryTaskId
  let e0 := [Effect.publish ch "task_progress"]
  let e1 :=
    if env.skipContext then e0
    else
      e0 ++ [Effect.publish ch "task_progress"] ++
        (match env.contextKeywords with
         | some k => if !(k == "") then [Effect.publish ch "context_extracted"] else []
         | none => [])
  let e2 := e1 ++ [Effect.publish ch "task_progress"]
  match env.transcription with
  | Except.error msg =>
    { payload := .str msg, effects := e2 ++ [Effect.publish ch "task_failed"],
      speakerSegments := [], failed := true }
  | Except.ok result0 =>
    let speakerSegments :=
      match env.diarization with
      | Except.ok segs => segs
      | Except.error _ => []
    let result1 :=
      match env.contextKeywords with
      | some k => if !(k == "") then result0.setKey "context_keywords" (.str k) else result0
      | none => result0
    let result2 :=
      if !speakerSegments.isEmpty then
        result1.setKey "segments"
          (.list (mergeSpeakerSegments (listOf (result1.getD "segments" (.list []))) speakerSegments))
      else result1
    match env.save with
    | Except.error msg =>
      { payload := .str msg, effects := e2 ++ [Effect.publish ch "task_failed"],
        speakerSegments := speakerSegments, failed := true }
    | Except.ok dbId =>
      let result3 := result2.setKey "id" (.str dbId)
      { payload := result3,
        effects := e2 ++ [Effect.dbCommit "save_transcription",
                          Effect.enqueue "run_auto_correct_task" result3,
                          Effect.publish ch "transcription_complete"],
        speakerSegments := speakerSegments, failed := false }
where
  listOf : PyVal → List PyVal
    | .list xs => xs
    | _ => []

/-- External outcome consumed by run_auto_correct_task: the text returned
by AutoCorrectionService.auto_correct, or None. -/
structure AutoCorrectEnv where
  corrected : Option String

/-- run_auto_correct_task (tasks.py lines 436-500). After the robust-input
prologue it runs the correction service, triggers the feedback loop when a
correction exists, writes corrected_text into the payload (even when None),
builds the minimal summary payload carrying id, corrected_text, text,
root_task_id and segments, and enqueues run_speaker_ident_task. The task
publishes no events of its own and its success path returns None. -/
def run_auto_correct_task (result0 : PyVal) (env : AutoCorrectEnv) : PyVal × List Effect :=
  let tid := extractTranscriptionId result0
  let result := normalizePayload result0
  if !tid.truthy then (result, [])
  else
    let e1 := [Effect.dbCommit "auto_correct_service"] ++
      (match env.corrected with
       | some c => [Effect.enqueue "run_feedback_loop_task" (.str c)]
       | none => [])
    let result1 :=
      match env.corrected with
      | some _ => result.setKey "auto_correct_status" (.str "complete")
      | none => result
    let rootTaskId := result1.get "root_task_id"
    let result2 := result1.setKey "corrected_text"
      (match env.corrected with
       | some c => .str c
       | none => .pynone)
    let summaryPayload : PyVal := .dict
      [("id", tid),
       ("corrected_text", result2.get "corrected_text"),
       ("text", result2.get "text"),
       ("root_task_id", rootTaskId),
       ("segments", result2.getD "segments" (.list []))]
    (.pynone, e1 ++ [Effect.enqueue "run_speaker_ident_task" summaryPayload])

/-- External outcome consumed by run_speaker_ident_task: the speaker-name
map returned by extract_speaker_names_from_transcript (empty when the LLM
yields nothing or the attempt fails). -/
structure SpeakerIdentEnv where
  namesMap : List (String × String)

/-- Distinct truthy speaker labels among the segment dicts (tasks.py line
557). -/
def countDistinctSpeakers (segments : PyVal) : Nat :=
  match segments with
  | .list xs =>
    ((xs.filterMap fun s =>
        let sp := s.get "speaker"
        if sp.truthy then some sp.pyStr else none).dedup).length
  | _ => 0

/-- run_speaker_ident_task (tasks.py lines 502-604). After the prologue it
publishes progress on the channel derived from root_task_id, falling back
to the transcription id; when more than one speaker is present and text is
available it resolves names, updates the segments, persists the names and
publishes the identification event; exceptions inside that block are
swallowed; finally it always enqueues generate_summary_task and returns the
payload. -/
def run_speaker_ident_task (result0 : PyVal) (env : SpeakerIdentEnv) : PyVal × List Effect :=
  let tid := extractTranscriptionId result0
  let result := normalizePayload result0
  if !tid.truthy then (result, [])
  else
    let rootTaskId := result.get "root_task_id"
    let channelId := if rootTaskId.truthy then rootTaskId else tid
    let ch := "app:task_" ++ channelId.pyStr
    let e1 := [Effect.publish ch "task_progress"]
    let textToAnalyze := pyOr (result.get "corrected_text") (result.getD "text" (.str ""))
    let segments := result.getD "segments" (.list [])
    let speakerCount := countDistinctSpeakers segments
    let branch :=
      if 1 < speakerCount ∧ textToAnalyze.truthy = true then
        if !env.namesMap.isEmpty then
          let newSegments :=
            match segments with
            | .list xs => PyVal.list (xs.map fun seg =>
                let label := (seg.getD "speaker" (.str "Unknown")).pyStr
                seg.setKey "speaker_name"
                  (.str ((env.namesMap.lookup label).getD label)))
            | other => other
          (result.setKey "segments" newSegments,
           [Effect.dbCommit "update_speaker_names", Effect.publish ch "speakers_identified"])
        else (result, [])
      else (result, [])
    (branch.1, e1 ++ branch.2 ++ [Effect.enqueue "generate_summary_task" branch.1])

/-! ## Summarizer service (backend/app/services/summarizer_service.py) -/

/-- Database row visible to the summary fallback fetch: the newest corrected
transcript content (the code sorts corrected_transcripts by corrected_at
descending and takes the first) and the raw transcript content. -/
structure DbTranscription where
  latestCorrected : Option String
  raw : Option String

/-- The fallback fetch of generate_summary (summarizer_service.py lines
78-82): prefer the newest corrected transcript content, then the raw
transcript content. -/
def DbTranscription.fetchedText (rec : DbTranscription) : Option String :=
  match rec.latestCorrected with
  | some c => some c
  | none => rec.raw

/-- The defensive id unwrap at the top of generate_summary
(summarizer_service.py lines 58-59): a dict id is replaced by its inner id
field. -/
def unwrapId (transcription_id : PyVal) : PyVal :=
  match transcription_id with
  | .dict _ => transcription_id.get "id"
  | _ => transcription_id

/-- External outcomes consumed by SummarizerService.generate_summary: the
fetched row (none when the transcription id is unknown), the text the LLM
returns (none models a generate that returned None, i.e. circuit open or a
failed call), and the summary/meeting-type pair json.loads extracts from the
sanitized response (none models a JSONDecodeError, whose fallback keeps the
raw response). -/
structure SummaryServiceEnv where
  dbRecord : Option DbTranscription
  llmResponse : Option String
  parsed : Option (String × String)

/-- The tail of generate_summary from the length gate onward
(summarizer_service.py lines 84-144): too-short or absent text returns None
before any write; an empty LLM response returns None; otherwise the parsed
(or fallback) summary is committed. -/
def SummarizerService.summarizeText (t : Option String) (env : SummaryServiceEnv) :
    Option (String × String) × List Effect :=
  match t with
  | none => (none, [])
  | some s =>
    if s == "" ∨ pyWordCount s < 20 then (none, [])
    else
      match env.llmResponse with
      | none => (none, [])
      | some resp =>
        if resp == "" then (none, [])
        else
          let parsedPair :=
            match env.parsed with
            | some pair => pair
            | none => (resp, "Unknown")
          (some parsedPair, [Effect.dbCommit "save_summary"])

/-- SummarizerService.generate_summary (summarizer_service.py lines 52-144).
A dict id is unwrapped once; a falsy id returns None; a falsy text argument
falls back to the stored row, preferring the newest corrected transcript
over the raw one and returning None when the row is missing. -/
def SummarizerService.generate_summary (transcription_id : PyVal) (text : Option String)
    (env : SummaryServiceEnv) : Option (String × String) × List Effect :=
  if !(unwrapId transcription_id).truthy then (none, [])
  else if pyFalsyText text then
    match env.dbRecord with
    | none => (none, [])
    | some rec => SummarizerService.summarizeText rec.fetchedText env
  else SummarizerService.summarizeText text env

/-- The text-selection expression shared by generate_summary_task and
run_speaker_ident_task (tasks.py lines 637, 548 and 669):
result.get corrected_text or result.get text. -/
def chosenSummaryText (result : PyVal) : PyVal :=
  pyOr (result.get "corrected_text") (result.get "text")

/-- generate_summary_task (tasks.py lines 607-723). After the prologue it
publishes progress on the channel derived from root_task_id (falling back to
the transcription id), selects the text to summarize, calls the summarizer
service, and publishes completion on the same channel when a summary was
produced; otherwise it marks the payload failed. -/
def generate_summary_task (result0 : PyVal) (env : SummaryServiceEnv) : PyVal × List Effect :=
  let tid := extractTranscriptionId result0
  let result := normalizePayload result0
  if !tid.truthy then (result, [])
  else
    let rootTaskId := result.get "root_task_id"
    let channelId := if rootTaskId.truthy then rootTaskId else tid
    let ch := "app:task_" ++ channelId.pyStr
    let e1 := [Effect.publish ch "task_progress"]
    let transcriptText := chosenSummaryText result
    let serviceOut := SummarizerService.generate_summary tid transcriptText.asTextOpt env
    match serviceOut.1 with
    | some pair =>
      let result1 := (result.setKey "summary_status" (.str "complete")).setKey
        "meeting_type" (.str pair.2)
      (result1, e1 ++ serviceOut.2 ++ [Effect.publish ch "summary_complete"])
    | none =>
      (result.setKey "summary_status" (.str "failed"), e1 ++ serviceOut.2)

/-- One whole submission as wired in the source: the API endpoint dispatches
transcribe_audio_task (transcription.py endpoint lines 109-121, which sets
no root task id in any payload); each stage then hands the payload it
enqueued to the next stage task. Collects every effect of the chain. -/
def pipelineChain (celeryTaskId : String) (et : TranscribeEnv) (ea : AutoCorrectEnv)
    (es : SpeakerIdentEnv) (eg : SummaryServiceEnv) : List Effect :=
  let o1 := transcribe_audio_task celeryTaskId et
  match enqueuedPayload o1.effects "run_auto_correct_task" with
  | none => o1.effects
  | some p1 =>
    let o2 := run_auto_correct_task p1 ea
    match enqueuedPayload o2.2 "run_speaker_ident_task" with
    | none => o1.effects ++ o2.2
    | some p2 =>
      let o3 := run_speaker_ident_task p2 es
      match enqueuedPayload o3.2 "generate_summary_task" with
      | none => o1.effects ++ o2.2 ++ o3.2
      | some p3 =>
        let o4 := generate_summary_task p3 eg
        o1.effects ++ o2.2 ++ o3.2 ++ o4.2

/-! ## Bounded model-handle concurrency (backend/app/services/transcription.py)

MaxAccuracyTranscriber.transcribe and WhisperCppTranscriber.transcribe both
wrap the inference dispatch in an async-with block over one
asyncio.Semaphore(max_concurrency) (lines 84 and 275): the slot is acquired
before the inference call and the with-block releases it on every exit,
whether the inference returned, raised, or was cancelled. The interleaving
of M concurrent transcribe calls on one handle is modelled as a sequence of
scheduler actions over the semaphore counter and each call's phase. -/

/-- Phase of one transcribe call: waiting to acquire the semaphore, holding
a slot with its inference executing, or finished (slot released). -/
inductive SlotPhase where
  | waiting
  | running
  | finished
deriving DecidableEq, Repr

/-- Semaphore value plus the phase of each of the M calls. -/
structure PoolState where
  sem : Nat
  tasks : List SlotPhase
deriving DecidableEq, Repr

/-- Fresh handle with concurrency limit and M waiting calls. -/
def PoolState.start (limit m : Nat) : PoolState :=
  { sem := limit, tasks := List.replicate m .waiting }

/-- Scheduler action: call i acquires the semaphore, or call i's inference
finishes (failed records whether it raised; the slot is released either
way). -/
inductive PoolAction where
  | acquire (i : Nat)
  | finish (i : Nat) (failed : Bool)
deriving DecidableEq, Repr

/-- Number of concurrently executing inferences. -/
def runningCount (ts : List SlotPhase) : Nat :=
  ts.countP fun p => p == .running

/-- One scheduler action. Acquire succeeds only for a waiting call when a
slot is free (asyncio.Semaphore blocks otherwise); finish applies only to a
running call and releases the slot unconditionally, exactly as the
async-with block does on success, exception and cancellation. Inapplicable
actions leave the state unchanged. -/
def poolStep (s : PoolState) (a : PoolAction) : PoolState :=
  match a with
  | .acquire i =>
    if s.tasks.getD i .finished = .waiting ∧ 0 < s.sem then
      { sem := s.sem - 1, tasks := s.tasks.set i .running }
    else s
  | .finish i _ =>
    if s.tasks.getD i .finished = .running then
      { sem := s.sem + 1, tasks := s.tasks.set i .finished }
    else s

/-- Run a whole schedule. -/
def runPool (s : PoolState) (actions : List PoolAction) : PoolState :=
  actions.foldl poolStep s

/-- Slot-accounting invariant: free slots plus running inferences equal the
concurrency limit. -/
def poolInv (limit : Nat) (s : PoolState) : Prop :=
  s.sem + runningCount s.tasks = limit

/-- The text generate_summary ends up summarizing, given the text argument
and the stored row: a falsy argument falls back to the newest corrected
transcript, then to the raw transcript. -/
def effectiveSummaryText (text : Option String) (rec : Option DbTranscription) : Option String :=
  if pyFalsyText text then
    match rec with
    | none => none
    | some r => r.fetchedText
  else text

/-- The text is absent, empty, or shorter than 20 whitespace-separated
words. -/
def absentOrShort (t : Option String) : Prop :=
  match t with
  | none => True
  | some s => s = "" ∨ pyWordCount s < 20

/-! ## Helper lemmas -/

theorem llm_generate_open (s : LlmState) (o : GenOutcome) (h : s.circuit_open = true) :
    LlmClient.generate s o = { state := s, response := none, networkAttempts := 0 } := by
  simp [LlmClient.generate, h]

theorem llm_generate_max (s : LlmState) (o : GenOutcome) :
    ((LlmClient.generate s o).state).max_failures = s.max_failures := by
  cases o <;>
    simp only [LlmClient.generate, LlmClient.generateFailure, LlmClient.resetCircuit,
      LlmClient.tripCircuit] <;>
    split <;> (try split) <;> rfl

theorem llm_run_open (os : List GenOutcome) (s : LlmState) (h : s.circuit_open = true) :
    (LlmClient.runGenerate s os).circuit_open = true := by
  induction os generalizing s with
  | nil => exact h
  | cons o os ih =>
    have hstep : ((LlmClient.generate s o).state).circuit_open = true := by
      rw [llm_generate_open s o h]; exact h
    simpa [LlmClient.runGenerate] using ih _ hstep

theorem llm_fail_step (s : LlmState) (o : GenOutcome) (ho : o.isFailure = true) :
    ((LlmClient.generate s o).state).circuit_open = true
    ∨ 1 ≤ ((LlmClient.generate s o).state).consecutive_failures := by
  cases hco : s.circuit_open with
  | true => left; rw [llm_generate_open s o hco]; exact hco
  | false =>
    right
    cases o with
    | success r => simp [GenOutcome.isFailure] at ho
    | httpError c =>
      simp only [LlmClient.generate, hco, Bool.false_eq_true, if_false,
        LlmClient.generateFailure, LlmClient.tripCircuit]
      split <;> exact Nat.succ_le_succ (Nat.zero_le _)
    | exc =>
      simp only [LlmClient.generate, hco, Bool.false_eq_true, if_false,
        LlmClient.generateFailure, LlmClient.tripCircuit]
      split <;> exact Nat.succ_le_succ (Nat.zero_le _)

theorem llm_trip_step (s : LlmState) (o : GenOutcome) (ho : o.isFailure = true)
    (h1 : 1 ≤ s.consecutive_failures) (hmax : s.max_failures = 2) :
    ((LlmClient.generate s o).state).circuit_open = true := by
  cases hco : s.circuit_open with
  | true => rw [llm_generate_open s o hco]; exact hco
  | false =>
    have hcond : s.max_failures ≤ s.consecutive_failures + 1 := by omega
    cases o with
    | success r => simp [GenOutcome.isFailure] at ho
    | httpError c =>
      simp [LlmClient.generate, hco, LlmClient.generateFailure, LlmClient.tripCircuit, hcond]
    | exc =>
      simp [LlmClient.generate, hco, LlmClient.generateFailure, LlmClient.tripCircuit, hcond]

theorem pyval_lookup_setGo (es : List (String × PyVal)) (k k2 : String) (x : PyVal)
    (h : ¬(k = k2)) :
    (PyVal.setKey.go k x es).lookup k2 = es.lookup k2 := by
  have hne : (k2 == k) = false := by
    rw [beq_eq_false_iff_ne]
    exact fun hk => h hk.symm
  induction es with
  | nil =>
    simp [PyVal.setKey.go, List.lookup, hne]
  | cons hd tl ih =>
    obtain ⟨k1, w⟩ := hd
    by_cases hk1 : (k1 == k) = true
    · have hk1eq : k1 = k := by rwa [beq_iff_eq] at hk1
      have h21 : (k2 == k1) = false := by rw [hk1eq]; exact hne
      simp [PyVal.setKey.go, List.lookup, hk1, hne, h21]
    · have hk1f : (k1 == k) = false := by simpa using hk1
      by_cases h21 : (k2 == k1) = true
      · simp [PyVal.setKey.go, List.lookup, hk1f, h21]
      · have h21f : (k2 == k1) = false := by simpa using h21
        simp [PyVal.setKey.go, List.lookup, hk1f, h21f, ih]

theorem pyval_get_setKey_ne (v : PyVal) (k k2 : String) (x : PyVal) (h : ¬(k = k2)) :
    (v.setKey k x).get k2 = v.get k2 := by
  cases v with
  | dict es =>
    simp only [PyVal.setKey, PyVal.get, PyVal.getD, pyval_lookup_setGo es k k2 x h]
  | pynone => rfl
  | pybool b => rfl
  | str s => rfl
  | int n => rfl
  | list xs => rfl

theorem noUsableId_not_truthy (p : PyVal) (h : noUsableId p = true) :
    (extractTranscriptionId p).truthy = false := by
  cases p with
  | str s => simp [noUsableId] at h
  | pynone => simpa [noUsableId] using h
  | pybool b => simpa [noUsableId] using h
  | int n => simpa [noUsableId] using h
  | list xs => simpa [noUsableId] using h
  | dict es => simpa [noUsableId] using h

theorem noUsableId_normalize (p : PyVal) (h : noUsableId p = true) :
    normalizePayload p = p := by
  cases p with
  | str s => simp [noUsableId] at h
  | pynone => rfl
  | pybool b => rfl
  | int n => rfl
  | list xs => rfl
  | dict es => rfl

theorem summarizeText_short (t : Option String) (env : SummaryServiceEnv)
    (h : absentOrShort t) :
    SummarizerService.summarizeText t env = (none, []) := by
  cases t with
  | none => rfl
  | some s =>
    have hcond : (s == "") = true ∨ pyWordCount s < 20 := by
      rcases h with h1 | h2
      · left; simpa using h1
      · right; exact h2
    simp only [SummarizerService.summarizeText]
    rcases hcond with h1 | h2
    · rw [if_pos (Or.inl h1)]
    · rw [if_pos (Or.inr h2)]

theorem runningCount_set_start (l : List SlotPhase) (i : Nat)
    (h : l.getD i .finished = .waiting) :
    runningCount (l.set i .running) = runningCount l + 1 := by
  induction l generalizing i with
  | nil => simp [List.getD] at h
  | cons hd tl ih =>
    cases i with
    | zero =>
      have hhd : hd = .waiting := by simpa [List.getD] using h
      subst hhd
      simp [runningCount, List.countP_cons]
    | succ n =>
      have hn : tl.getD n .finished = .waiting := by simpa [List.getD] using h
      have := ih n hn
      simp only [List.set, runningCount, List.countP_cons] at *
      omega

theorem runningCount_set_finish (l : List SlotPhase) (i : Nat)
    (h : l.getD i .finished = .running) :
    runningCount (l.set i .finished) + 1 = runningCount l := by
  induction l generalizing i with
  | nil => simp [List.getD] at h
  | cons hd tl ih =>
    cases i with
    | zero =>
      have hhd : hd = .running := by simpa [List.getD] using h
      subst hhd
      simp [runningCount, List.countP_cons]
    | succ n =>
      have hn : tl.getD n .finished = .running := by simpa [List.getD] using h
      have := ih n hn
      simp only [List.set, runningCount, List.countP_cons] at *
      omega

theorem poolStep_inv (limit : Nat) (s : PoolState) (a : PoolAction)
    (h : poolInv limit s) : poolInv limit (poolStep s a) := by
  cases a with
  | acquire i =>
    simp only [poolStep]
    split
    · rename_i hcond
      obtain ⟨hw, hsem⟩ := hcond
      have hset := runningCount_set_start s.tasks i hw
      simp only [poolInv] at h ⊢
      omega
    · exact h
  | finish i b =>
    simp only [poolStep]
    split
    · rename_i hcond
      have hset := runningCount_set_finish s.tasks i hcond
      simp only [poolInv] at h ⊢
      omega
    · exact h

theorem runPool_inv (limit : Nat) (actions : List PoolAction) (s : PoolState)
    (h : poolInv limit s) : poolInv limit (runPool s actions) := by
  induction actions generalizing s with
  | nil => exact h
  | cons a as ih =>
    simpa [runPool] using ih (poolStep s a) (poolStep_inv limit s a h)

theorem poolInv_start (limit m : Nat) : poolInv limit (PoolState.start limit m) := by
  have hrc : runningCount (List.replicate m SlotPhase.waiting) = 0 := by
    simp [runningCount, List.countP_eq_zero]
  simp [poolInv, PoolState.start, hrc]

/-! ## Claim theorems -/

/-- Claim C1: with the default failure threshold 2, any sequence of two or
more consecutive failed generate calls leaves the circuit OPEN; while OPEN
every generate call returns None immediately with zero network attempts; a
successful recovery probe closes the circuit again; and a successful call
while CLOSED resets the consecutive-failure counter to zero. -/
theorem circuit_two_failures_then_open (s t u : LlmState) (os : List GenOutcome)
    (o : GenOutcome) (r : String)
    (hmax : s.max_failures = 2) (hlen : 2 ≤ os.length)
    (hfail : ∀ x ∈ os, x.isFailure = true)
    (hopen : t.circuit_open = true) (hclosed : u.circuit_open = false) :
    (LlmClient.runGenerate s os).circuit_open = true
    ∧ LlmClient.generate t o = { state := t, response := none, networkAttempts := 0 }
    ∧ ((LlmClient.check_connection t ProbeOutcome.okModelFound).1).circuit_open = false
    ∧ ((LlmClient.generate u (GenOutcome.success r)).state).consecutive_failures = 0 := by
  refine ⟨?_, llm_generate_open t o hopen, rfl, ?_⟩
  · rcases os with _ | ⟨o1, os1⟩
    · simp at hlen
    rcases os1 with _ | ⟨o2, os2⟩
    · simp at hlen
    have hf1 : o1.isFailure = true := hfail o1 (by simp)
    have hf2 : o2.isFailure = true := hfail o2 (by simp)
    have hrun : LlmClient.runGenerate s (o1 :: o2 :: os2)
        = LlmClient.runGenerate
            ((LlmClient.generate ((LlmClient.generate s o1).state) o2).state) os2 := rfl
    rw [hrun]
    rcases llm_fail_step s o1 hf1 with h1 | h1
    · refine llm_run_open os2 _ ?_
      rw [llm_generate_open _ o2 h1]
      exact h1
    · have hm1 : ((LlmClient.generate s o1).state).max_failures = 2 := by
        rw [llm_generate_max]; exact hmax
      exact llm_run_open os2 _ (llm_trip_step _ o2 hf2 h1 hm1)
  · simp [LlmClient.generate, hclosed, LlmClient.resetCircuit]

/-- Witness for C1 at the initial client state and two concrete failed
calls. -/
theorem circuit_two_failures_then_open_witness :
    (LlmClient.runGenerate LlmState.init [GenOutcome.exc, GenOutcome.httpError 500]).circuit_open
      = true
    ∧ LlmClient.generate ⟨true, 0, 2⟩ GenOutcome.exc
      = { state := ⟨true, 0, 2⟩, response := none, networkAttempts := 0 }
    ∧ ((LlmClient.check_connection ⟨true, 0, 2⟩ ProbeOutcome.okModelFound).1).circuit_open = false
    ∧ ((LlmClient.generate LlmState.init (GenOutcome.success "ok")).state).consecutive_failures
      = 0 :=
  circuit_two_failures_then_open LlmState.init ⟨true, 0, 2⟩ LlmState.init
    [GenOutcome.exc, GenOutcome.httpError 500] GenOutcome.exc "ok"
    rfl (by decide) (by decide) rfl rfl

/-- Claim C2 counterexample: from the freshly initialized CLOSED state, one
single failed connection probe moves the circuit to OPEN even though the
consecutive-failure counter (0) is still below the threshold (2), so
CLOSED to OPEN does not happen only when the failure threshold is
reached. -/
theorem circuit_probe_trip_counterexample :
    LlmState.init.circuit_open = false
    ∧ (LlmClient.step LlmState.init (LlmEvent.probe (ProbeOutcome.httpError 500))).circuit_open
      = true
    ∧ (LlmClient.step LlmState.init
        (LlmEvent.probe (ProbeOutcome.httpError 500))).consecutive_failures
      < LlmState.init.max_failures := by
  exact ⟨rfl, rfl, by decide⟩

/-- Claim C2 as amended: the only CLOSED to OPEN edges are a generate
failure that meets the threshold and a failed connection probe (which trips
unconditionally); the only OPEN to CLOSED edge is a successful probe that
finds the model; there is no other edge and no third state. -/
theorem circuit_edge_characterization (s : LlmState) (e : LlmEvent) :
    (s.circuit_open = false → (LlmClient.step s e).circuit_open = true →
      e.isFailedProbe = true
      ∨ (e.isGenFailure = true ∧ s.max_failures ≤ s.consecutive_failures + 1))
    ∧ (s.circuit_open = true → (LlmClient.step s e).circuit_open = false →
      e = LlmEvent.probe ProbeOutcome.okModelFound) := by
  constructor
  · intro hclosed hopen
    cases e with
    | gen o =>
      cases o with
      | success r =>
        simp [LlmClient.step, LlmClient.generate, hclosed, LlmClient.resetCircuit] at hopen
      | httpError c =>
        by_cases hth : s.max_failures ≤ s.consecutive_failures + 1
        · exact Or.inr ⟨rfl, hth⟩
        · exfalso
          simp [LlmClient.step, LlmClient.generate, hclosed, LlmClient.generateFailure,
            hth] at hopen
      | exc =>
        by_cases hth : s.max_failures ≤ s.consecutive_failures + 1
        · exact Or.inr ⟨rfl, hth⟩
        · exfalso
          simp [LlmClient.step, LlmClient.generate, hclosed, LlmClient.generateFailure,
            hth] at hopen
    | probe o =>
      cases o with
      | okModelFound =>
        simp [LlmClient.step, LlmClient.check_connection, LlmClient.resetCircuit] at hopen
      | okModelMissing =>
        simp [LlmClient.step, LlmClient.check_connection, hclosed] at hopen
      | httpError c => exact Or.inl rfl
      | exc => exact Or.inl rfl
  · intro hopen hclosed2
    cases e with
    | gen o =>
      exfalso
      rw [show LlmClient.step s (.gen o) = (LlmClient.generate s o).state from rfl,
        llm_generate_open s o hopen, hopen] at hclosed2
      simp at hclosed2
    | probe o =>
      cases o with
      | okModelFound => rfl
      | okModelMissing =>
        exfalso
        rw [show LlmClient.step s (.probe .okModelMissing) = s from rfl, hopen] at hclosed2
        simp at hclosed2
      | httpError c =>
        exfalso
        simp [LlmClient.step, LlmClient.check_connection, LlmClient.tripCircuit] at hclosed2
      | exc =>
        exfalso
        simp [LlmClient.step, LlmClient.check_connection, LlmClient.tripCircuit] at hclosed2

/-- Witness for the amended C2: a closed state one failure below the
threshold trips on the next failed generate call, and that edge satisfies
the characterization. -/
theorem circuit_edge_characterization_witness :
    (LlmState.mk false 1 2).circuit_open = false
    ∧ (LlmClient.step ⟨false, 1, 2⟩ (LlmEvent.gen GenOutcome.exc)).circuit_open = true
    ∧ ((LlmEvent.gen GenOutcome.exc).isFailedProbe = true
        ∨ ((LlmEvent.gen GenOutcome.exc).isGenFailure = true ∧ (2 : Nat) ≤ 1 + 1)) :=
  ⟨rfl, by decide,
    (circuit_edge_characterization ⟨false, 1, 2⟩ (LlmEvent.gen GenOutcome.exc)).1
      rfl (by decide)⟩

/-- Claim C3 counterexample: with the transcriber READY, the LLM in ERROR
and diarization READY, the code aggregates to DEGRADED while the claimed
worst-of-N ordering yields ERROR. -/
theorem overall_status_counterexample :
    SystemHealthService.overallStatus .ready .error .ready
      ≠ specWorstOfN .ready .error .ready := by
  decide

/-- Claim C3 as amended: the aggregation is a worst-of-N over per-component
severities in which the transcriber contributes ERROR only for ERROR (its
DEGRADED and UNAVAILABLE count as READY), the LLM contributes at most
DEGRADED (its ERROR is capped at DEGRADED), and diarization contributes at
most DEGRADED with only ERROR visible. -/
theorem overall_status_componentwise_worst :
    ∀ t l d : ServiceStatus,
      SystemHealthService.overallStatus t l d
        = statusOfSeverity (max (transcriberSeverity t) (max (llmSeverity l) (diarizationSeverity d))) := by
  intro t l d
  cases t <;> cases l <;> cases d <;> rfl

/-- Claim C7: across any interleaving of any number of concurrent
transcribe calls on one handle with concurrency limit L, the number of
concurrently executing inferences never exceeds L, free slots plus running
inferences always equal L, and once no inference is running every slot has
been released (no leaked slots). -/
theorem pool_running_bounded (limit m : Nat) (actions : List PoolAction) :
    runningCount (runPool (PoolState.start limit m) actions).tasks ≤ limit
    ∧ (runPool (PoolState.start limit m) actions).sem
        + runningCount (runPool (PoolState.start limit m) actions).tasks = limit
    ∧ (runningCount (runPool (PoolState.start limit m) actions).tasks = 0 →
        (runPool (PoolState.start limit m) actions).sem = limit) := by
  have h := runPool_inv limit actions _ (poolInv_start limit m)
  simp only [poolInv] at h
  exact ⟨by omega, h, fun h0 => by omega⟩

/-- Witness for C7: three concurrent calls against the default limit 2, with
one schedule that saturates the semaphore. -/
theorem pool_running_bounded_witness :
    runningCount (runPool (PoolState.start 2 3)
        [PoolAction.acquire 0, PoolAction.acquire 1, PoolAction.acquire 2,
         PoolAction.finish 0 true, PoolAction.acquire 2]).tasks ≤ 2
    ∧ (runPool (PoolState.start 2 3)
        [PoolAction.acquire 0, PoolAction.acquire 1, PoolAction.acquire 2,
         PoolAction.finish 0 true, PoolAction.acquire 2]).sem
      + runningCount (runPool (PoolState.start 2 3)
        [PoolAction.acquire 0, PoolAction.acquire 1, PoolAction.acquire 2,
         PoolAction.finish 0 true, PoolAction.acquire 2]).tasks = 2
    ∧ (runningCount (runPool (PoolState.start 2 3)
        [PoolAction.acquire 0, PoolAction.acquire 1, PoolAction.acquire 2,
         PoolAction.finish 0 true, PoolAction.acquire 2]).tasks = 0 →
       (runPool (PoolState.start 2 3)
        [PoolAction.acquire 0, PoolAction.acquire 1, PoolAction.acquire 2,
         PoolAction.finish 0 true, PoolAction.acquire 2]).sem = 2) :=
  pool_running_bounded 2 3
    [PoolAction.acquire 0, PoolAction.acquire 1, PoolAction.acquire 2,
     PoolAction.finish 0 true, PoolAction.acquire 2]

/-- Claim C8: publish_event never lets a serialization or transport failure
escape to its synchronous caller; every outcome returns normally. -/
theorem publish_event_never_raises (channel eventType : String) (o : PublishOutcome)
    (msg : String) :
    EventService.publish_event channel eventType o ≠ Except.error msg
    ∧ (∃ b, EventService.publish_event channel eventType o = Except.ok b) := by
  cases o <;> simp [EventService.publish_event, EventService.publishBody]

/-- Claim C9: when no transcription id can be extracted from the input
payload (the input is neither a string nor a dict with a usable id,
including a dict whose id field is a dict without an inner id), each
downstream stage task returns its input unchanged with no persistence
write, no published event and no further enqueue. -/
theorem invalid_payload_passthrough (p : PyVal) (ea : AutoCorrectEnv) (es : SpeakerIdentEnv)
    (eg : SummaryServiceEnv) (h : noUsableId p = true) :
    run_auto_correct_task p ea = (p, [])
    ∧ run_speaker_ident_task p es = (p, [])
    ∧ generate_summary_task p eg = (p, []) := by
  have h1 := noUsableId_not_truthy p h
  have h2 := noUsableId_normalize p h
  refine ⟨?_, ?_, ?_⟩
  · simp [run_auto_correct_task, h1, h2]
  · simp [run_speaker_ident_task, h1, h2]
  · simp [generate_summary_task, h1, h2]

/-- Witness for C9: a payload whose id field is a dict without an inner
id. -/
theorem invalid_payload_passthrough_witness :
    run_auto_correct_task (.dict [("id", .dict [("x", .int 1)])]) ⟨none⟩
      = (.dict [("id", .dict [("x", .int 1)])], [])
    ∧ run_speaker_ident_task (.dict [("id", .dict [("x", .int 1)])]) ⟨[]⟩
      = (.dict [("id", .dict [("x", .int 1)])], [])
    ∧ generate_summary_task (.dict [("id", .dict [("x", .int 1)])]) ⟨none, none, none⟩
      = (.dict [("id", .dict [("x", .int 1)])], []) :=
  invalid_payload_passthrough (.dict [("id", .dict [("x", .int 1)])]) ⟨none⟩ ⟨[]⟩
    ⟨none, none, none⟩ rfl

/-- Claim C10: whenever the text generate_summary ends up with (after the
database fallback) is absent, empty or shorter than 20 whitespace-separated
words, the call returns None and performs no database write. -/
theorem short_text_no_summary (tid : PyVal) (text : Option String) (env : SummaryServiceEnv)
    (h : absentOrShort (effectiveSummaryText text env.dbRecord)) :
    SummarizerService.generate_summary tid text env = (none, []) := by
  unfold SummarizerService.generate_summary
  split
  · rfl
  · split
    · rename_i hfal
      cases hdb : env.dbRecord with
      | none => simp [hdb]
      | some rec =>
        simp only [hdb]
        have heff : effectiveSummaryText text env.dbRecord = rec.fetchedText := by
          simp [effectiveSummaryText, hfal, hdb]
        rw [heff] at h
        exact summarizeText_short _ env h
    · rename_i hfal
      have hfalse : pyFalsyText text = false := by
        simpa using hfal
      have heff : effectiveSummaryText text env.dbRecord = text := by
        simp [effectiveSummaryText, hfalse]
      rw [heff] at h
      exact summarizeText_short text env h

/-- Witness for C10: a nine-character two-word text is below the 20-word
threshold, so no summary is produced even though the LLM would answer. -/
theorem short_text_no_summary_witness :
    SummarizerService.generate_summary (.str "t-1") (some "too short")
      ⟨none, some "a generated summary", none⟩ = (none, []) :=
  short_text_no_summary (.str "t-1") (some "too short")
    ⟨none, some "a generated summary", none⟩ (Or.inr (by decide))

/-- Claim C6: the text chosen for summarization is corrected_text when that
field is a non-empty string, and otherwise the text field; a payload with a
text field and no corrected_text key is summarized from the text field, and
the summarizer service given non-empty text uses it without any database
fallback. -/
theorem summary_text_fallback (p q w : PyVal) (c t tid : String) (env : SummaryServiceEnv)
    (hp : p.get "corrected_text" = PyVal.str c) (hc : ¬(c = ""))
    (hw : (w.get "corrected_text").truthy = false)
    (hq1 : q.get "corrected_text" = PyVal.pynone) (hq2 : q.get "text" = PyVal.str t)
    (ht : ¬(t = "")) (htid : ¬(tid = "")) :
    chosenSummaryText p = PyVal.str c
    ∧ chosenSummaryText w = w.get "text"
    ∧ chosenSummaryText q = PyVal.str t
    ∧ SummarizerService.generate_summary (PyVal.str tid) (some t) env
        = SummarizerService.summarizeText (some t) env := by
  refine ⟨?_, ?_, ?_, ?_⟩
  · simp [chosenSummaryText, pyOr, hp, PyVal.truthy, hc]
  · simp [chosenSummaryText, pyOr, hw]
  · simp [chosenSummaryText, pyOr, hq1, hq2, PyVal.truthy]
  · simp [SummarizerService.generate_summary, unwrapId, PyVal.truthy, htid, pyFalsyText, ht]

/-- Witness for C6 at a payload with both fields, one with an empty
corrected text, and the spec scenario payload with a text field and no
corrected_text key. -/
theorem summary_text_fallback_witness :
    chosenSummaryText (.dict [("corrected_text", .str "fixed text"), ("text", .str "raw text")])
      = PyVal.str "fixed text"
    ∧ chosenSummaryText (.dict [("corrected_text", .str "")])
      = (PyVal.dict [("corrected_text", .str "")]).get "text"
    ∧ chosenSummaryText (.dict [("id", .str "job-1"), ("text", .str "raw words here")])
      = PyVal.str "raw words here"
    ∧ SummarizerService.generate_summary (PyVal.str "job-1") (some "raw words here")
        ⟨none, none, none⟩
      = SummarizerService.summarizeText (some "raw words here") ⟨none, none, none⟩ :=
  summary_text_fallback
    (.dict [("corrected_text", .str "fixed text"), ("text", .str "raw text")])
    (.dict [("id", .str "job-1"), ("text", .str "raw words here")])
    (.dict [("corrected_text", .str "")])
    "fixed text" "raw words here" "job-1" ⟨none, none, none⟩
    rfl (by decide) rfl rfl rfl (by decide) (by decide)

/-- Claim C5: when transcription succeeds with non-empty text, persistence
succeeds and speaker segmentation raises, the joined payload keeps the
non-empty transcript text, the observed speaker-segment list is empty, the
attempt does not fail, and the auto-correct stage is still enqueued. -/
theorem partial_failure_join (celeryId : String) (env : TranscribeEnv) (r : PyVal)
    (t dbId errm : String)
    (htr : env.transcription = Except.ok r) (htext : r.get "text" = PyVal.str t)
    (ht : ¬(t = "")) (hdi : env.diarization = Except.error errm)
    (hsave : env.save = Except.ok dbId) :
    (transcribe_audio_task celeryId env).speakerSegments = []
    ∧ ((transcribe_audio_task celeryId env).payload).get "text" = PyVal.str t
    ∧ (((transcribe_audio_task celeryId env).payload).get "text").truthy = true
    ∧ enqueuesTask (transcribe_audio_task celeryId env).effects "run_auto_correct_task" = true
    ∧ (transcribe_audio_task celeryId env).failed = false := by
  have hne1 : ¬("id" = "text") := by decide
  have hne2 : ¬("context_keywords" = "text") := by decide
  have hpay : ((transcribe_audio_task celeryId env).payload).get "text" = PyVal.str t := by
    simp only [transcribe_audio_task, htr, hdi, hsave, List.isEmpty_nil]
    cases hck : env.contextKeywords with
    | none =>
      simp [pyval_get_setKey_ne _ _ _ _ hne1, htext]
    | some k =>
      by_cases hk : (k == "") = true
      · simp [hk, pyval_get_setKey_ne _ _ _ _ hne1, htext]
      · have hkf : (k == "") = false := by simpa using hk
        simp [hkf, pyval_get_setKey_ne _ _ _ _ hne1, pyval_get_setKey_ne _ _ _ _ hne2, htext]
  refine ⟨?_, hpay, ?_, ?_, ?_⟩
  · simp [transcribe_audio_task, htr, hdi, hsave]
  · rw [hpay]; simp [PyVal.truthy, ht]
  · simp [transcribe_audio_task, htr, hdi, hsave, enqueuesTask]
  · simp [transcribe_audio_task, htr, hdi, hsave]

/-- Witness for C5: a concrete submission whose diarization raises while
transcription and persistence succeed. -/
theorem partial_failure_join_witness :
    (transcribe_audio_task "celery-1"
      ⟨true, none, Except.ok (.dict [("text", .str "hello there"), ("segments", .list [])]),
       Except.error "diar down", Except.ok "db-1"⟩).speakerSegments = []
    ∧ ((transcribe_audio_task "celery-1"
      ⟨true, none, Except.ok (.dict [("text", .str "hello there"), ("segments", .list [])]),
       Except.error "diar down", Except.ok "db-1"⟩).payload).get "text"
      = PyVal.str "hello there"
    ∧ (((transcribe_audio_task "celery-1"
      ⟨true, none, Except.ok (.dict [("text", .str "hello there"), ("segments", .list [])]),
       Except.error "diar down", Except.ok "db-1"⟩).payload).get "text").truthy = true
    ∧ enqueuesTask (transcribe_audio_task "celery-1"
      ⟨true, none, Except.ok (.dict [("text", .str "hello there"), ("segments", .list [])]),
       Except.error "diar down", Except.ok "db-1"⟩).effects "run_auto_correct_task" = true
    ∧ (transcribe_audio_task "celery-1"
      ⟨true, none, Except.ok (.dict [("text", .str "hello there"), ("segments", .list [])]),
       Except.error "diar down", Except.ok "db-1"⟩).failed = false :=
  partial_failure_join "celery-1"
    ⟨true, none, Except.ok (.dict [("text", .str "hello there"), ("segments", .list [])]),
     Except.error "diar down", Except.ok "db-1"⟩
    (.dict [("text", .str "hello there"), ("segments", .list [])])
    "hello there" "db-1" "diar down" rfl rfl (by decide) rfl rfl

/-- Claim C4: evaluating one whole submission as wired in the source (the
endpoint passes no root task id, transcribe_audio_task enqueues the payload
without one), the transcribe stage publishes on the channel of its own
Celery task id while the speaker-identify and summarize stages publish on
the channel of the persisted transcription id, so the stages of one job do
not all publish to one channel. -/
theorem stage_channels_diverge :
    allSameChannel (pipelineChain "celery-1"
      { skipContext := true, contextKeywords := none,
        transcription := Except.ok (.dict [("text", .str "hello world"), ("segments", .list [])]),
        diarization := Except.error "diarization failed",
        save := Except.ok "db-1" }
      { corrected := some "corrected text" }
      { namesMap := [] }
      { dbRecord := none, llmResponse := none, parsed := none }) = false
    ∧ "app:task_celery-1" ∈ publishChannels (pipelineChain "celery-1"
      { skipContext := true, contextKeywords := none,
        transcription := Except.ok (.dict [("text", .str "hello world"), ("segments", .list [])]),
        diarization := Except.error "diarization failed",
        save := Except.ok "db-1" }
      { corrected := some "corrected text" }
      { namesMap := [] }
      { dbRecord := none, llmResponse := none, parsed := none })
    ∧ "app:task_db-1" ∈ publishChannels (pipelineChain "celery-1"
      { skipContext := true, contextKeywords := none,
        transcription := Except.ok (.dict [("text", .str "hello world"), ("segments", .list [])]),
        diarization := Except.error "diarization failed",
        save := Except.ok "db-1" }
      { corrected := some "corrected text" }
      { namesMap := [] }
      { dbRecord := none, llmResponse := none, parsed := none }) := by
  refine ⟨by decide, by decide, by decide⟩
